import Mathlib

/-!
Shallow embedding of src/oop_bot_v3.py, a command-line contact book:
field validators (Phone, Birthday), Record, AddressBook with the
upcoming-birthday query, and the decorated command handlers.

Machine-level conventions of the source that the model reproduces:
- Python re.match with a pattern anchored as ^...$ accepts the pattern
  followed by one trailing newline (the dollar matches just before a final
  newline).  The model restricts the alphabet to ASCII; Python \d also
  matches non-ASCII Unicode decimal digits, and every concrete input used
  below is ASCII.
- datetime.strptime(s, "%d.%m.%Y") performs a leftmost regex match of the
  whole string (a partial match is the "unconverted data remains" error)
  and then constructs a datetime, which rejects year 0 and a day beyond the
  month length.
- str(datetime(...)) is the isoformat rendering with a space separator and
  a four-digit zero-padded year; strftime %Y on CPython/glibc prints the
  year unpadded (year 900 renders as "900"), verified platform behaviour.
- datetime.now() carries a time of day; the stored birthdays are midnight
  datetimes.  The clock is passed explicitly as a date plus the time of day
  in microseconds.
-/

namespace OopBot

/-- Decimal digit class of the regexes in the source, over the ASCII
fragment of the alphabet (Python \d additionally matches non-ASCII Unicode
decimal digits, outside this model). -/
def pyDigit (c : Char) : Bool := c.isDigit

/-- Digit character of a single decimal digit value (k at most 9). -/
def digitChar (k : Nat) : Char := Char.ofNat (48 + k)

/-- Numeric value of a digit character. -/
def charVal (c : Char) : Nat := c.toNat - 48

/-- Value of a two-digit group captured by a regex. -/
def digitsVal2 (a b : Char) : Nat := 10 * charVal a + charVal b

/-- Unpadded decimal rendering of a number, most significant digit first,
on the range of the datetime fields it renders (year at most 9999, month
and day at most two digits). -/
def natChars (n : Nat) : List Char :=
  if n < 10 then [digitChar n]
  else if n < 100 then [digitChar (n / 10), digitChar (n % 10)]
  else if n < 1000 then [digitChar (n / 100), digitChar (n / 10 % 10), digitChar (n % 10)]
  else [digitChar (n / 1000 % 10), digitChar (n / 100 % 10), digitChar (n / 10 % 10),
    digitChar (n % 10)]

def natStr (n : Nat) : String := String.mk (natChars n)

/-- Zero-padded two-digit strftime field (%d, %m). -/
def pad2 (n : Nat) : String :=
  if n < 10 then String.mk [digitChar 0, digitChar n] else natStr n

/-- Zero-padded four-digit year as printed by datetime.isoformat. -/
def pad4 (n : Nat) : String :=
  if n < 10 then String.mk [digitChar 0, digitChar 0, digitChar 0] ++ natStr n
  else if n < 100 then String.mk [digitChar 0, digitChar 0] ++ natStr n
  else if n < 1000 then String.mk [digitChar 0] ++ natStr n
  else natStr n

/-- Year field of strftime %Y on CPython/glibc: unpadded. -/
def yearStr (n : Nat) : String := natStr n

/-- Tokens of the two literal regexes in the source. -/
inductive RTok where
  | digit : RTok
  | lit : Char → RTok
deriving DecidableEq, Repr

/-- Sequential consumption of a literal token pattern from the input. -/
def consume : List RTok → List Char → Option (List Char)
  | [], cs => some cs
  | RTok.digit :: ts, c :: cs => if pyDigit c then consume ts cs else none
  | RTok.lit a :: ts, c :: cs => if c = a then consume ts cs else none
  | _ :: _, [] => none

/-- Python re.match against a pattern anchored as ^...$: the match starts at
position zero and the dollar accepts the end of the string or the position
just before a single trailing newline. -/
def reMatchDollar (ts : List RTok) (s : String) : Bool :=
  match consume ts s.data with
  | some rest => rest == [] || rest == ['\n']
  | none => false

/-- Pattern of ten digits used by Phone.validate. -/
def phoneRe : List RTok := List.replicate 10 RTok.digit

/-- Pattern of the anchored DD.MM.YYYY shape used by Birthday.validate. -/
def birthdayRe : List RTok :=
  [RTok.digit, RTok.digit, RTok.lit '.', RTok.digit, RTok.digit, RTok.lit '.',
   RTok.digit, RTok.digit, RTok.digit, RTok.digit]

/-- Phone.validate from the source. -/
def Phone.validate (phone : String) : Bool := reMatchDollar phoneRe phone

/-- Birthday.validate from the source. -/
def Birthday.validate (birthday : String) : Bool := reMatchDollar birthdayRe birthday

/-- Calendar date stored by a Birthday (the time part of the stored datetime
is always midnight). -/
structure Date where
  year : Nat
  month : Nat
  day : Nat
deriving DecidableEq, Repr

/-- Gregorian leap-year rule, as in the datetime module. -/
def isLeap (y : Nat) : Bool := y % 4 == 0 && (y % 100 != 0 || y % 400 == 0)

def daysInMonth (y m : Nat) : Nat :=
  if m = 2 then (if isLeap y then 29 else 28)
  else if m = 4 ∨ m = 6 ∨ m = 9 ∨ m = 11 then 30
  else 31

/-- Dates accepted by the datetime constructor (MINYEAR 1, MAXYEAR 9999). -/
def validDate (dt : Date) : Prop :=
  1 ≤ dt.year ∧ dt.year ≤ 9999 ∧ 1 ≤ dt.month ∧ dt.month ≤ 12 ∧
    1 ≤ dt.day ∧ dt.day ≤ daysInMonth dt.year dt.month

instance (dt : Date) : Decidable (validDate dt) := by
  unfold validDate
  exact inferInstance

/-- Days in the years before year y of the proleptic Gregorian calendar. -/
def daysBeforeYear (y : Nat) : Nat :=
  365 * (y - 1) + (y - 1) / 4 - (y - 1) / 100 + (y - 1) / 400

/-- Days in the months of year y before month m. -/
def daysBeforeMonth (y m : Nat) : Nat :=
  (List.range (m - 1)).foldl (fun acc i => acc + daysInMonth y (i + 1)) 0

/-- date.toordinal: day number with 0001-01-01 as day 1. -/
def toOrdinal (dt : Date) : Nat :=
  daysBeforeYear dt.year + daysBeforeMonth dt.year dt.month + dt.day

/-- datetime.weekday(): Monday is 0, Sunday is 6. -/
def weekday (dt : Date) : Nat := (toOrdinal dt - 1) % 7

/-- Successor day in the calendar; adding one day with timedelta agrees with
this on valid dates. -/
def nextDay (dt : Date) : Date :=
  if dt.day < daysInMonth dt.year dt.month then ⟨dt.year, dt.month, dt.day + 1⟩
  else if dt.month < 12 then ⟨dt.year, dt.month + 1, 1⟩
  else ⟨dt.year + 1, 1, 1⟩

def addDays (dt : Date) : Nat → Date
  | 0 => dt
  | k + 1 => addDays (nextDay dt) k

/-- AddressBook.next_monday from the source: shift by (7 - weekday) mod 7
days. -/
def nextMonday (day : Date) : Date := addDays day ((7 - weekday day) % 7)

/-- strftime("%d.%m.%Y") as used by show_birthday. -/
def strftime_dmY (dt : Date) : String :=
  pad2 dt.day ++ "." ++ pad2 dt.month ++ "." ++ yearStr dt.year

/-- strftime("%Y-%m-%d") as used by get_upcoming_birthdays. -/
def strftime_Ymd (dt : Date) : String :=
  yearStr dt.year ++ "-" ++ pad2 dt.month ++ "-" ++ pad2 dt.day

/-- str(datetime) for the midnight datetimes stored by Birthday: isoformat
with a space separator and the zero time rendered as 00:00:00. -/
def pyDatetimeStr (dt : Date) : String :=
  pad4 dt.year ++ "-" ++ pad2 dt.month ++ "-" ++ pad2 dt.day ++ " 00:00:00"

/-- Nonzero decimal digit, the class [1-9] inside _strptime field regexes. -/
def nzDigit (c : Char) : Bool := pyDigit c && !(c == '0')

/-- Alternation branches of the %d field regex (3[01]|[12]\d|0[1-9]|[1-9])
of _strptime, in leftmost order: each branch that lexically matches yields
its captured value and the remaining input. -/
def dayBranches : List Char → List (Nat × List Char)
  | c1 :: c2 :: rest =>
    (if c1 == '3' && (c2 == '0' || c2 == '1') then [(digitsVal2 c1 c2, rest)] else []) ++
    (if (c1 == '1' || c1 == '2') && pyDigit c2 then [(digitsVal2 c1 c2, rest)] else []) ++
    (if c1 == '0' && nzDigit c2 then [(digitsVal2 c1 c2, rest)] else []) ++
    (if nzDigit c1 then [(charVal c1, c2 :: rest)] else [])
  | [c1] => if nzDigit c1 then [(charVal c1, [])] else []
  | [] => []

/-- Alternation branches of the %m field regex (1[0-2]|0[1-9]|[1-9]). -/
def monthBranches : List Char → List (Nat × List Char)
  | c1 :: c2 :: rest =>
    (if c1 == '1' && (c2 == '0' || c2 == '1' || c2 == '2') then [(digitsVal2 c1 c2, rest)] else []) ++
    (if c1 == '0' && nzDigit c2 then [(digitsVal2 c1 c2, rest)] else []) ++
    (if nzDigit c1 then [(charVal c1, c2 :: rest)] else [])
  | [c1] => if nzDigit c1 then [(charVal c1, [])] else []
  | [] => []

/-- Literal dot of the pattern: consume one '.' from the input. -/
def expectDot : List Char → Option (List Char)
  | c :: r => if c = '.' then some r else none
  | [] => none

/-- Consume one digit, returning its value. -/
def readDigit : List Char → Option (Nat × List Char)
  | c :: r => if pyDigit c then some (charVal c, r) else none
  | [] => none

/-- Consume the (\d\d\d\d) year group of the pattern. -/
def readYear4 (cs : List Char) : Option (Nat × List Char) :=
  match readDigit cs with
  | some (a, r1) =>
    match readDigit r1 with
    | some (b, r2) =>
      match readDigit r2 with
      | some (c, r3) =>
        match readDigit r3 with
        | some (d, r4) => some (((a * 10 + b) * 10 + c) * 10 + d, r4)
        | none => none
      | none => none
    | none => none
  | none => none

/-- Continuation after the day and month groups: the year group and the
captured triple. -/
def yearCont (dm : Nat × Nat) (r3 : List Char) : Option ((Nat × Nat × Nat) × List Char) :=
  match readYear4 r3 with
  | some (y, r4) => some ((dm.1, dm.2, y), r4)
  | none => none

/-- Continuation applied to one month branch: the second literal dot, then
the year group. -/
def monthCont (d : Nat) (monBr : Nat × List Char) : Option ((Nat × Nat × Nat) × List Char) :=
  match expectDot monBr.2 with
  | none => none
  | some r3 => yearCont (d, monBr.1) r3

/-- Continuation applied to one day branch: the first literal dot, then the
month alternation. -/
def dayCont (dayBr : Nat × List Char) : Option ((Nat × Nat × Nat) × List Char) :=
  match expectDot dayBr.2 with
  | none => none
  | some r2 => (monthBranches r2).findSome? (monthCont dayBr.1)

/-- Leftmost match of the full _strptime regex for "%d.%m.%Y", namely
(day)\.(month)\.(\d\d\d\d): captured day, month and year values plus the
unconsumed suffix.  Backtracking over the field alternations follows the
branch lists in leftmost order. -/
def matchDMY (cs : List Char) : Option ((Nat × Nat × Nat) × List Char) :=
  (dayBranches cs).findSome? dayCont

/-- datetime.strptime(s, "%d.%m.%Y"): a regex match that must cover the whole
string (leftover input is the "unconverted data remains" error), followed by
datetime construction, which enforces validDate. -/
def strptime_dmY (s : String) : Option Date :=
  match matchDMY s.data with
  | some ((d, m, y), rest) =>
    if rest = [] then (if validDate ⟨y, m, d⟩ then some ⟨y, m, d⟩ else none) else none
  | none => none

/-- Zero-padded two-digit character group of a number below 100. -/
def dchars2 (n : Nat) : List Char := [digitChar (n / 10 % 10), digitChar (n % 10)]

/-- Zero-padded four-digit character group of a number below 10000. -/
def dchars4 (n : Nat) : List Char :=
  [digitChar (n / 1000 % 10), digitChar (n / 100 % 10), digitChar (n / 10 % 10),
   digitChar (n % 10)]

/-- Characters of the zero-padded rendering DD.MM.YYYY of a date given by
numbers. -/
def dmyChars (d m y : Nat) : List Char :=
  dchars2 d ++ '.' :: dchars2 m ++ '.' :: dchars4 y

/-- String of the zero-padded rendering DD.MM.YYYY. -/
def mkDMY (d m y : Nat) : String := String.mk (dmyChars d m y)

/-- Python exception classes distinguished by the input_error decorator. -/
inductive PyErr where
  | valueError : String → PyErr
  | keyError : String → PyErr
  | indexError : String → PyErr
  | exception : String → PyErr
deriving DecidableEq, Repr

/-- Single-quote character; str(KeyError) is the repr of its argument, which
wraps it in these quotes. -/
def quoteStr : String := String.singleton (Char.ofNat 39)

/-- Rendering performed by the input_error decorator on a caught exception. -/
def renderErr : PyErr → String
  | PyErr.valueError m => "Error: " ++ m
  | PyErr.keyError m => "Error: " ++ quoteStr ++ m ++ quoteStr
  | PyErr.indexError m => "Error: " ++ m
  | PyErr.exception m => "An unexpected error occurred: " ++ m

/-- Failure kinds of Birthday construction: the explicit regex check, or the
ValueError propagating out of strptime. -/
inductive BErr where
  | invalidFormat : BErr
  | invalidDate : BErr
deriving DecidableEq, Repr

/-- Message of the explicit ValueError raised by Birthday on regex failure. -/
def invalidFormatMsg : String := "Invalid date format. Use DD.MM.YYYY"

/-- ValueError text raised inside strptime, the datetime constructor or
datetime.replace.  CPython uses several texts depending on the cause; no
claim depends on the text, so one representative (the message of
datetime.replace on an out-of-range day) stands for all of them. -/
def dateRangeMsg : String := "day is out of range for month"

def pyErrOfBErr : BErr → PyErr
  | BErr.invalidFormat => PyErr.valueError invalidFormatMsg
  | BErr.invalidDate => PyErr.valueError dateRangeMsg

/-- Birthday.__init__: the explicit regex check, then datetime.strptime. -/
def birthdayNew (value : String) : Except BErr Date :=
  if Birthday.validate value then
    match strptime_dmY value with
    | some d => Except.ok d
    | none => Except.error BErr.invalidDate
  else Except.error BErr.invalidFormat

/-- Phone.__init__: validate, then store the string unchanged. -/
def phoneNew (value : String) : Except PyErr String :=
  if Phone.validate value then Except.ok value
  else Except.error (PyErr.valueError "Phone number must contain 10 digits")

/-- One contact: name, ordered phone values, optional birthday. -/
structure Record where
  name : String
  phones : List String
  birthday : Option Date
deriving DecidableEq, Repr

/-- Record.add_phone: append a freshly validated phone. -/
def Record.addPhone (r : Record) (phone : String) : Except PyErr Record :=
  (phoneNew phone).map fun v => { r with phones := r.phones ++ [v] }

/-- Record.__init__: a name, exactly one validated phone, no birthday. -/
def recordNew (name phone : String) : Except PyErr Record :=
  Record.addPhone { name := name, phones := [], birthday := none } phone

/-- Replacement of the first list entry equal to old; none when no entry
matches. -/
def replaceFirst : List String → String → String → Option (List String)
  | [], _, _ => none
  | p :: ps, old, new =>
    if p = old then some (new :: ps) else (replaceFirst ps old new).map (p :: ·)

/-- Record.edit_phone: overwrite the value attribute of the first matching
phone with the raw new string (the source performs no validation here), or
raise ValueError when no phone matches. -/
def Record.editPhone (r : Record) (oldPhone newPhone : String) : Except PyErr Record :=
  match replaceFirst r.phones oldPhone newPhone with
  | some ps => Except.ok { r with phones := ps }
  | none => Except.error (PyErr.valueError "Phone number not found")

/-- Record.add_birthday: overwrite the birthday with a validated one. -/
def Record.addBirthday (r : Record) (birthday : String) : Except PyErr Record :=
  match birthdayNew birthday with
  | Except.ok d => Except.ok { r with birthday := some d }
  | Except.error e => Except.error (pyErrOfBErr e)

/-- Python str.join with a separator, as used by the renderings. -/
def strJoin (sep : String) : List String → String
  | [] => ""
  | [x] => x
  | x :: xs => x ++ sep ++ strJoin sep xs

/-- Record.__str__ from the source; the birthday field goes through str of
the stored datetime, not through strftime. -/
def recordStr (r : Record) : String :=
  "Contact name: " ++ r.name ++ ", phones: " ++ strJoin "; " r.phones ++ ", birthday: " ++
    (match r.birthday with
     | some d => pyDatetimeStr d
     | none => "No info")

/-- AddressBook.data: an insertion-ordered mapping from name to Record, as a
Python dict. -/
abbrev AddressBook := List (String × Record)

/-- Python dict item assignment: overwrite in place, or append a new key. -/
def dictSet : AddressBook → String → Record → AddressBook
  | [], k, v => [(k, v)]
  | (k1, v1) :: rest, k, v =>
    if k1 = k then (k, v) :: rest else (k1, v1) :: dictSet rest k v

/-- AddressBook.find, i.e. dict.get. -/
def bookFind : AddressBook → String → Option Record
  | [], _ => none
  | (k1, v1) :: rest, k => if k1 = k then some v1 else bookFind rest k

/-- Value of datetime.now() at the moment of a birthdays query: calendar
date plus the time of day in microseconds (0 exactly at midnight). -/
structure Now where
  date : Date
  tod : Nat
deriving DecidableEq, Repr

def usPerDay : Nat := 86400000000

/-- Comparison birthday_this_year < today between the midnight datetime bty
and the clock value; datetime comparison is lexicographic on the fields,
which on valid dates agrees with ordinal order. -/
def beforeNow (bty : Date) (now : Now) : Prop :=
  toOrdinal bty < toOrdinal now.date ∨ (toOrdinal bty = toOrdinal now.date ∧ 0 < now.tod)

instance (bty : Date) (now : Now) : Decidable (beforeNow bty now) := by
  unfold beforeNow
  exact inferInstance

/-- days attribute of the timedelta (bty_midnight - now): floor of the
difference in microseconds over one day. -/
def daysUntil (bty : Date) (now : Now) : Int :=
  Int.fdiv (((toOrdinal bty : Int) - (toOrdinal now.date : Int)) * usPerDay - now.tod) usPerDay

/-- Tail of the loop body of get_upcoming_birthdays once the occurrence bty
survived the year replacement: window test, renewed dict lookup of the name
(as in the source) and weekend shift. -/
def keepCheck (book : AddressBook) (now : Now) (bty : Date) (r : Record) :
    Except PyErr (Option (String × String)) :=
  if 0 ≤ daysUntil bty now ∧ daysUntil bty now ≤ 7 then
    match bookFind book r.name with
    | some r2 =>
      Except.ok (some (r2.name, strftime_Ymd (if weekday bty < 5 then bty else nextMonday bty)))
    | none => Except.error (PyErr.keyError r.name)
  else Except.ok none

/-- Loop body of get_upcoming_birthdays for one record: year replacement
(datetime.replace raises ValueError when the substituted date is invalid,
e.g. February 29 against a non-leap year), bump to next year when already
passed, then the window test. -/
def processRecord (book : AddressBook) (now : Now) (r : Record) :
    Except PyErr (Option (String × String)) :=
  match r.birthday with
  | none => Except.ok none
  | some b =>
    let btyA : Date := ⟨now.date.year, b.month, b.day⟩
    if validDate btyA then
      if beforeNow btyA now then
        let btyB : Date := ⟨now.date.year + 1, b.month, b.day⟩
        if validDate btyB then keepCheck book now btyB r
        else Except.error (PyErr.valueError dateRangeMsg)
      else keepCheck book now btyA r
    else Except.error (PyErr.valueError dateRangeMsg)

def upcomingLoop (book : AddressBook) (now : Now) :
    List (String × Record) → Except PyErr (List (String × String))
  | [] => Except.ok []
  | (_, r) :: rest =>
    match processRecord book now r with
    | Except.error e => Except.error e
    | Except.ok none => upcomingLoop book now rest
    | Except.ok (some p) => (upcomingLoop book now rest).map (p :: ·)

/-- AddressBook.get_upcoming_birthdays, with the call-time clock made an
explicit parameter. -/
def getUpcomingBirthdays (book : AddressBook) (now : Now) :
    Except PyErr (List (String × String)) :=
  upcomingLoop book now book

/-- add_contact handler body (before the decorator). -/
def addContactRaw (book : AddressBook) (name phone : String) :
    Except PyErr (String × AddressBook) :=
  match bookFind book name with
  | none =>
    (recordNew name phone).map fun r =>
      ("Contact " ++ name ++ " has been added with phone number " ++ phone,
       dictSet book name r)
  | some r =>
    (Record.addPhone r phone).map fun r2 =>
      ("Phone number " ++ phone ++ " has been added to contact " ++ name,
       dictSet book name r2)

/-- edit_contact_phone handler body; the success text reproduces the typo of
the source. -/
def editContactPhoneRaw (book : AddressBook) (name oldPhone newPhone : String) :
    Except PyErr (String × AddressBook) :=
  match bookFind book name with
  | none => Except.error (PyErr.keyError ("Contact " ++ name ++ " does not exist"))
  | some r =>
    (Record.editPhone r oldPhone newPhone).map fun r2 =>
      ("Contact " ++ name ++ " has been changedphone number from " ++ oldPhone ++
         " to phone number " ++ newPhone,
       dictSet book name r2)

/-- show_phones handler body. -/
def showPhonesRaw (book : AddressBook) (name : String) :
    Except PyErr (String × AddressBook) :=
  match bookFind book name with
  | none => Except.error (PyErr.keyError ("Contact " ++ name ++ " does not exist"))
  | some r =>
    Except.ok ("Phone numbers for " ++ name ++ " are: " ++ strJoin ", " r.phones, book)

/-- show_all handler body; raises the bare Exception class on an empty
book. -/
def showAllRaw (book : AddressBook) : Except PyErr (String × AddressBook) :=
  if book = [] then Except.error (PyErr.exception "No contacts found")
  else Except.ok ((book.map fun kv => recordStr kv.2 ++ "\n").foldl (· ++ ·) "", book)

/-- add_birthday handler body. -/
def addBirthdayRaw (book : AddressBook) (name birthday : String) :
    Except PyErr (String × AddressBook) :=
  match bookFind book name with
  | none => Except.error (PyErr.keyError ("Contact " ++ name ++ " does not exist"))
  | some r =>
    (Record.addBirthday r birthday).map fun r2 =>
      ("Birthday " ++ birthday ++ " has been added to contact " ++ name,
       dictSet book name r2)

/-- show_birthday handler body. -/
def showBirthdayRaw (book : AddressBook) (name : String) :
    Except PyErr (String × AddressBook) :=
  match bookFind book name with
  | none => Except.error (PyErr.keyError ("Contact " ++ name ++ " does not exist"))
  | some r =>
    match r.birthday with
    | none => Except.error (PyErr.valueError ("Contact " ++ name ++ " has no birthday"))
    | some d => Except.ok ("Birthday for " ++ name ++ " is " ++ strftime_dmY d, book)

/-- birthdays handler body. -/
def birthdaysRaw (book : AddressBook) (now : Now) : Except PyErr (String × AddressBook) :=
  match getUpcomingBirthdays book now with
  | Except.error e => Except.error e
  | Except.ok [] => Except.ok ("No upcoming birthdays", book)
  | Except.ok l =>
    Except.ok ("Upcoming birthdays: \n" ++
      (l.map fun p => p.1 ++ " - " ++ p.2 ++ "\n").foldl (· ++ ·) "", book)

/-- Command-handler invocations with their string arguments; the birthdays
command carries the clock value that the handler reads. -/
inductive Cmd where
  | add : String → String → Cmd
  | change : String → String → String → Cmd
  | phone : String → Cmd
  | all : Cmd
  | addBday : String → String → Cmd
  | showBday : String → Cmd
  | upcoming : Now → Cmd
deriving Repr

/-- Undecorated handler dispatch. -/
def runRaw : Cmd → AddressBook → Except PyErr (String × AddressBook)
  | Cmd.add n p, book => addContactRaw book n p
  | Cmd.change n o w, book => editContactPhoneRaw book n o w
  | Cmd.phone n, book => showPhonesRaw book n
  | Cmd.all, book => showAllRaw book
  | Cmd.addBday n b, book => addBirthdayRaw book n b
  | Cmd.showBday n, book => showBirthdayRaw book n
  | Cmd.upcoming now, book => birthdaysRaw book now

/-- Decorated handler: the result string on success, the rendered message on
any exception; the book is unchanged on failure, since every failing path of
every handler raises before mutating. -/
def runCmd (c : Cmd) (book : AddressBook) : String × AddressBook :=
  match runRaw c book with
  | Except.ok out => out
  | Except.error e => (renderErr e, book)

/-- State after a sequence of dispatched commands. -/
def runCmds : List Cmd → AddressBook → AddressBook
  | [], book => book
  | c :: cs, book => runCmds cs (runCmd c book).2

/-- Spec-side phone join: the phones interspersed with the separator, written
independently of strJoin to state the rendering claim. -/
def joinWithSep (sep : String) (l : List String) : String :=
  String.mk ((l.map String.data).intersperse sep.data).flatten

/-- Invariant of C10: every record reachable in the book has a non-empty
phone list. -/
def bookInv (book : AddressBook) : Prop :=
  ∀ k r, bookFind book k = some r → r.phones ≠ []

theorem pyDigit_digitChar_mod (k : Nat) : pyDigit (digitChar (k % 10)) = true := by
  have h : k % 10 < 10 := Nat.mod_lt _ (by norm_num)
  set r := k % 10 with hr
  interval_cases r <;> rfl

theorem charVal_digitChar_mod (k : Nat) : charVal (digitChar (k % 10)) = k % 10 := by
  have h : k % 10 < 10 := Nat.mod_lt _ (by norm_num)
  set r := k % 10 with hr
  interval_cases r <;> rfl

theorem readDigit_digitChar_mod (k : Nat) (rest : List Char) :
    readDigit (digitChar (k % 10) :: rest) = some (k % 10, rest) := by
  have h : k % 10 < 10 := Nat.mod_lt _ (by norm_num)
  set r := k % 10 with hr
  interval_cases r <;> rfl

theorem expectDot_digitChar_mod (k : Nat) (rest : List Char) :
    expectDot (digitChar (k % 10) :: rest) = none := by
  have h : k % 10 < 10 := Nat.mod_lt _ (by norm_num)
  set r := k % 10 with hr
  interval_cases r <;> rfl

theorem expectDot_dot (rest : List Char) : expectDot ('.' :: rest) = some rest := rfl

theorem dayBranches_pair (q r : Nat) (hq : q ≤ 9) (hr : r ≤ 9) (rest : List Char) :
    dayBranches (digitChar q :: digitChar r :: rest) =
      (if 1 ≤ 10 * q + r ∧ 10 * q + r ≤ 31 then [(10 * q + r, rest)] else []) ++
      (if 1 ≤ q then [(q, digitChar r :: rest)] else []) := by
  interval_cases q <;> interval_cases r <;> rfl

theorem monthBranches_pair (q r : Nat) (hq : q ≤ 9) (hr : r ≤ 9) (rest : List Char) :
    monthBranches (digitChar q :: digitChar r :: rest) =
      (if 1 ≤ 10 * q + r ∧ 10 * q + r ≤ 12 then [(10 * q + r, rest)] else []) ++
      (if 1 ≤ q then [(q, digitChar r :: rest)] else []) := by
  interval_cases q <;> interval_cases r <;> rfl

theorem readYear4_dchars4 (y : Nat) (hy : y ≤ 9999) (tail : List Char) :
    readYear4 (dchars4 y ++ tail) = some (y, tail) := by
  have hv : ((y / 1000 % 10 * 10 + y / 100 % 10) * 10 + y / 10 % 10) * 10 + y % 10 = y := by
    omega
  simp only [dchars4, List.cons_append, List.nil_append, readYear4,
    readDigit_digitChar_mod]
  rw [hv]

theorem yearCont_dchars4 (dm : Nat × Nat) (y : Nat) (hy : y ≤ 9999) (tail : List Char) :
    yearCont dm (dchars4 y ++ tail) = some ((dm.1, dm.2, y), tail) := by
  simp only [yearCont, readYear4_dchars4 y hy tail]

theorem monthCont_dot (d v : Nat) (rest : List Char) :
    monthCont d (v, '.' :: rest) = yearCont (d, v) rest := by
  simp only [monthCont, expectDot_dot]

theorem monthCont_digitChar (d v k : Nat) (rest : List Char) :
    monthCont d (v, digitChar (k % 10) :: rest) = none := by
  simp only [monthCont, expectDot_digitChar_mod]

theorem dayCont_dot (v : Nat) (rest : List Char) :
    dayCont (v, '.' :: rest) = (monthBranches rest).findSome? (monthCont v) := by
  simp only [dayCont, expectDot_dot]

theorem dayCont_digitChar (v k : Nat) (rest : List Char) :
    dayCont (v, digitChar (k % 10) :: rest) = none := by
  simp only [dayCont, expectDot_digitChar_mod]

theorem matchDMY_shape (d m y : Nat) (hd : d ≤ 99) (hm : m ≤ 99) (hy : y ≤ 9999)
    (tail : List Char) :
    matchDMY (dmyChars d m y ++ tail) =
      if 1 ≤ d ∧ d ≤ 31 ∧ 1 ≤ m ∧ m ≤ 12 then some ((d, m, y), tail) else none := by
  have ed : d / 10 % 10 = d / 10 := by omega
  have ed2 : 10 * (d / 10) + d % 10 = d := by omega
  have em : m / 10 % 10 = m / 10 := by omega
  have em2 : 10 * (m / 10) + m % 10 = m := by omega
  unfold matchDMY dmyChars dchars2
  simp only [List.cons_append, List.nil_append, List.append_assoc]
  rw [ed, em, dayBranches_pair (d / 10) (d % 10) (by omega) (by omega), ed2]
  by_cases h1 : 1 ≤ d ∧ d ≤ 31
  · rw [if_pos h1, List.singleton_append, List.findSome?_cons, dayCont_dot,
      monthBranches_pair (m / 10) (m % 10) (by omega) (by omega), em2]
    by_cases h2 : 1 ≤ m ∧ m ≤ 12
    · rw [if_pos h2, List.singleton_append, List.findSome?_cons, monthCont_dot,
        yearCont_dchars4 (d, m) y hy tail]
      have hcond : 1 ≤ d ∧ d ≤ 31 ∧ 1 ≤ m ∧ m ≤ 12 := ⟨h1.1, h1.2, h2.1, h2.2⟩
      rw [if_pos hcond]
    · rw [if_neg h2, List.nil_append]
      have hmid : List.findSome? (monthCont d)
          (if 1 ≤ m / 10 then
            [(m / 10, digitChar (m % 10) :: '.' :: (dchars4 y ++ tail))] else []) = none := by
        by_cases h3 : 1 ≤ m / 10
        · rw [if_pos h3, List.findSome?_cons, monthCont_digitChar, List.findSome?_nil]
        · rw [if_neg h3, List.findSome?_nil]
      rw [hmid]
      have hday2 : List.findSome? dayCont
          (if 1 ≤ d / 10 then
            [(d / 10, digitChar (d % 10) :: '.' :: digitChar (m / 10) ::
              digitChar (m % 10) :: '.' :: (dchars4 y ++ tail))] else []) = none := by
        by_cases h4 : 1 ≤ d / 10
        · rw [if_pos h4, List.findSome?_cons, dayCont_digitChar, List.findSome?_nil]
        · rw [if_neg h4, List.findSome?_nil]
      rw [hday2, if_neg (by tauto)]
  · rw [if_neg h1, List.nil_append]
    have hday2 : List.findSome? dayCont
        (if 1 ≤ d / 10 then
          [(d / 10, digitChar (d % 10) :: '.' :: digitChar (m / 10) ::
            digitChar (m % 10) :: '.' :: (dchars4 y ++ tail))] else []) = none := by
      by_cases h4 : 1 ≤ d / 10
      · rw [if_pos h4, List.findSome?_cons, dayCont_digitChar, List.findSome?_nil]
      · rw [if_neg h4, List.findSome?_nil]
    rw [hday2, if_neg (by tauto)]

theorem daysInMonth_le31 (y m : Nat) : daysInMonth y m ≤ 31 := by
  unfold daysInMonth
  split
  · split <;> omega
  · split <;> omega

theorem consume_birthdayRe (d m y : Nat) (tail : List Char) :
    consume birthdayRe (dmyChars d m y ++ tail) = some tail := by
  simp only [birthdayRe, dmyChars, dchars2, dchars4, List.cons_append, List.nil_append,
    consume, pyDigit_digitChar_mod, if_true, reduceIte]
  rfl

theorem validate_mkDMY (d m y : Nat) : Birthday.validate (mkDMY d m y) = true := by
  have h := consume_birthdayRe d m y []
  rw [List.append_nil] at h
  unfold Birthday.validate reMatchDollar mkDMY
  rw [show (String.mk (dmyChars d m y)).data = dmyChars d m y from rfl, h]
  rfl

theorem validate_mkDMY_newline (d m y : Nat) :
    Birthday.validate (String.mk (dmyChars d m y ++ ['\n'])) = true := by
  have h := consume_birthdayRe d m y ['\n']
  unfold Birthday.validate reMatchDollar
  rw [show (String.mk (dmyChars d m y ++ ['\n'])).data = dmyChars d m y ++ ['\n'] from rfl, h]
  rfl

theorem strptime_mkDMY (d m y : Nat) (hd : d ≤ 99) (hm : m ≤ 99) (hy : y ≤ 9999) :
    strptime_dmY (mkDMY d m y) =
      if validDate ⟨y, m, d⟩ then some ⟨y, m, d⟩ else none := by
  have h := matchDMY_shape d m y hd hm hy []
  rw [List.append_nil] at h
  unfold strptime_dmY mkDMY
  rw [show (String.mk (dmyChars d m y)).data = dmyChars d m y from rfl, h]
  by_cases hr : 1 ≤ d ∧ d ≤ 31 ∧ 1 ≤ m ∧ m ≤ 12
  · rw [if_pos hr]
    simp only [if_pos rfl, reduceIte]
  · rw [if_neg hr]
    have hnv : ¬ validDate ⟨y, m, d⟩ := by
      intro hv
      simp only [validDate] at hv
      obtain ⟨hy1, hy2, hm1, hm2, hd1, hd2⟩ := hv
      have := daysInMonth_le31 y m
      exact hr ⟨hd1, by omega, hm1, hm2⟩
    rw [if_neg hnv]

theorem birthdayNew_mkDMY (d m y : Nat) (hd : d ≤ 99) (hm : m ≤ 99) (hy : y ≤ 9999) :
    birthdayNew (mkDMY d m y) =
      if validDate ⟨y, m, d⟩ then Except.ok ⟨y, m, d⟩ else Except.error BErr.invalidDate := by
  unfold birthdayNew
  rw [validate_mkDMY, if_pos rfl, strptime_mkDMY d m y hd hm hy]
  by_cases h : validDate ⟨y, m, d⟩
  · rw [if_pos h, if_pos h]
  · rw [if_neg h, if_neg h]

theorem birthdayNew_mkDMY_newline (d m y : Nat) (hd : d ≤ 99) (hm : m ≤ 99)
    (hy : y ≤ 9999) :
    birthdayNew (String.mk (dmyChars d m y ++ ['\n'])) = Except.error BErr.invalidDate := by
  unfold birthdayNew
  rw [validate_mkDMY_newline, if_pos rfl]
  unfold strptime_dmY
  rw [show (String.mk (dmyChars d m y ++ ['\n'])).data = dmyChars d m y ++ ['\n'] from rfl,
    matchDMY_shape d m y hd hm hy ['\n']]
  by_cases hr : 1 ≤ d ∧ d ≤ 31 ∧ 1 ≤ m ∧ m ≤ 12
  · rw [if_pos hr]
    rfl
  · rw [if_neg hr]

theorem consume_replicate_digit (n : Nat) (cs rest : List Char) :
    consume (List.replicate n RTok.digit) cs = some rest ↔
      ∃ pre : List Char, pre.length = n ∧ pre.all pyDigit = true ∧ cs = pre ++ rest := by
  induction n generalizing cs with
  | zero =>
    constructor
    · intro h
      refine ⟨[], rfl, rfl, ?_⟩
      simpa [consume] using h
    · rintro ⟨pre, hlen, _, rfl⟩
      rw [List.length_eq_zero] at hlen
      subst hlen
      simp [consume]
  | succ k ih =>
    rw [List.replicate_succ]
    cases cs with
    | nil =>
      constructor
      · intro h
        simp [consume] at h
      · rintro ⟨pre, hlen, _, heq⟩
        cases pre with
        | nil => simp at hlen
        | cons a l => simp at heq
    | cons c cs' =>
      by_cases hc : pyDigit c = true
      · rw [show consume (RTok.digit :: List.replicate k RTok.digit) (c :: cs') =
            consume (List.replicate k RTok.digit) cs' from by simp [consume, hc]]
        rw [ih cs']
        constructor
        · rintro ⟨pre, hlen, hall, rfl⟩
          exact ⟨c :: pre, by simp [hlen], by simp [List.all_cons, hc, hall], rfl⟩
        · rintro ⟨pre, hlen, hall, heq⟩
          cases pre with
          | nil => simp at hlen
          | cons a l =>
            simp only [List.cons_append, List.cons.injEq] at heq
            simp only [List.all_cons, Bool.and_eq_true] at hall
            exact ⟨l, by simpa using hlen, hall.2, heq.2⟩
      · rw [show consume (RTok.digit :: List.replicate k RTok.digit) (c :: cs') = none from by
            simp [consume, hc]]
        constructor
        · intro h
          simp at h
        · rintro ⟨pre, hlen, hall, heq⟩
          cases pre with
          | nil => simp at hlen
          | cons a l =>
            simp only [List.cons_append, List.cons.injEq] at heq
            simp only [List.all_cons, Bool.and_eq_true] at hall
            exact absurd (show pyDigit c = true by rw [heq.1]; exact hall.1) hc

/-- C3.  The claim that phone validation accepts exactly the strings of ten
ASCII decimal digits is false: Python re.match with the anchored pattern also
accepts ten digits followed by one trailing newline, an eleven-character
string. -/
theorem c3_trailing_newline_accepted :
    Phone.validate "1234567890\n" = true ∧ "1234567890\n".length ≠ 10 := by
  constructor
  · rfl
  · decide

/-- C3 (amended): phone validation accepts a string iff it consists of ten
digits optionally followed by one trailing newline (over the ASCII alphabet;
Python \d additionally matches non-ASCII Unicode decimal digits), and Phone
construction succeeds exactly on accepted strings, raising the ValueError of
the source otherwise. -/
theorem c3_phone_validation :
    ∀ s : String,
      (Phone.validate s = true ↔
        ∃ pre : List Char, pre.length = 10 ∧ pre.all pyDigit = true ∧
          (s.data = pre ∨ s.data = pre ++ ['\n']))
      ∧ (phoneNew s = Except.ok s ↔ Phone.validate s = true)
      ∧ (Phone.validate s = false →
          phoneNew s = Except.error (PyErr.valueError "Phone number must contain 10 digits")) := by
  intro s
  refine ⟨?_, ?_, ?_⟩
  · unfold Phone.validate reMatchDollar phoneRe
    cases hc : consume (List.replicate 10 RTok.digit) s.data with
    | none =>
      constructor
      · intro h
        simp at h
      · rintro ⟨pre, hlen, hall, hcase⟩
        rcases hcase with h1 | h1
        · have h2 : consume (List.replicate 10 RTok.digit) s.data = some [] :=
            (consume_replicate_digit 10 s.data []).2 ⟨pre, hlen, hall, by simpa using h1⟩
          rw [hc] at h2
          cases h2
        · have h2 : consume (List.replicate 10 RTok.digit) s.data = some ['\n'] :=
            (consume_replicate_digit 10 s.data ['\n']).2 ⟨pre, hlen, hall, h1⟩
          rw [hc] at h2
          cases h2
    | some rest =>
      constructor
      · intro h
        have hrest : rest = [] ∨ rest = ['\n'] := by
          simpa using h
        obtain ⟨pre, hlen, hall, heq⟩ := (consume_replicate_digit 10 s.data rest).1 hc
        rcases hrest with rfl | rfl
        · exact ⟨pre, hlen, hall, Or.inl (by simpa using heq)⟩
        · exact ⟨pre, hlen, hall, Or.inr heq⟩
      · rintro ⟨pre, hlen, hall, hcase⟩
        rcases hcase with h1 | h1
        · have h2 : consume (List.replicate 10 RTok.digit) s.data = some [] :=
            (consume_replicate_digit 10 s.data []).2 ⟨pre, hlen, hall, by simpa using h1⟩
          rw [hc] at h2
          injection h2 with h3
          subst h3
          rfl
        · have h2 : consume (List.replicate 10 RTok.digit) s.data = some ['\n'] :=
            (consume_replicate_digit 10 s.data ['\n']).2 ⟨pre, hlen, hall, h1⟩
          rw [hc] at h2
          injection h2 with h3
          subst h3
          rfl
  · unfold phoneNew
    by_cases h : Phone.validate s = true
    · simp [h]
    · simp [h]
  · intro h
    unfold phoneNew
    rw [if_neg (by simp [h])]

/-- C3 witness: a rejected string makes Phone construction raise the
validator ValueError. -/
theorem c3_witness :
    phoneNew "123456789x" =
      Except.error (PyErr.valueError "Phone number must contain 10 digits") :=
  (c3_phone_validation "123456789x").2.2 rfl

/-- C1.  Record.edit_phone assigns the raw new string to the matched phone
without validating it: editing a valid phone to the three-letter string abc
succeeds and stores it, although phone validation rejects it — the code
contradicts the validation design of its own Phone class. -/
theorem c1_edit_phone_skips_validation :
    Record.editPhone ⟨"Ann", ["1234567890"], none⟩ "1234567890" "abc" =
      Except.ok ⟨"Ann", ["abc"], none⟩ ∧
    Phone.validate "abc" = false := ⟨rfl, rfl⟩

/-- C5.  A birthday falling on the calendar day of the query is excluded
whenever the clock is past midnight: the stored midnight occurrence compares
strictly below datetime.now(), is bumped to the next year, and fails the
seven-day window; at exactly midnight the same record is included.  The
claim that a birthday falling on today is always included is therefore
false on the code. -/
theorem c5_today_birthday_excluded :
    getUpcomingBirthdays
        [("Ann", { name := "Ann", phones := ["1234567890"], birthday := some ⟨1990, 6, 10⟩ })]
        { date := ⟨2024, 6, 10⟩, tod := 43200000000 } = Except.ok [] ∧
    getUpcomingBirthdays
        [("Ann", { name := "Ann", phones := ["1234567890"], birthday := some ⟨1990, 6, 10⟩ })]
        { date := ⟨2024, 6, 10⟩, tod := 0 } = Except.ok [("Ann", "2024-06-10")] := by
  constructor
  · rfl
  · rfl

theorem strJoin_eq_joinWithSep (sep : String) (l : List String) :
    strJoin sep l = joinWithSep sep l := by
  induction l with
  | nil => rfl
  | cons x xs ih =>
    cases xs with
    | nil =>
      apply String.ext
      simp [strJoin, joinWithSep]
    | cons y ys =>
      apply String.ext
      have ihd := congrArg String.data ih
      simp only [joinWithSep] at ihd
      simp only [strJoin, joinWithSep, List.map_cons, List.intersperse_cons_cons,
        List.flatten_cons, String.data_append, ihd]
      simp [List.append_assoc]

/-- C2 (counterexample).  A record whose birthday is set renders the
birthday through str of the stored datetime, so the output ends in
2020-02-29 00:00:00 rather than the DD.MM.YYYY text the claim expects. -/
theorem c2_rendering_counterexample :
    recordStr ⟨"Ann", ["1234567890"], some ⟨2020, 2, 29⟩⟩ =
      "Contact name: Ann, phones: 1234567890, birthday: 2020-02-29 00:00:00" ∧
    recordStr ⟨"Ann", ["1234567890"], some ⟨2020, 2, 29⟩⟩ ≠
      "Contact name: Ann, phones: 1234567890, birthday: 29.02.2020" := by
  constructor
  · rfl
  · decide

/-- C2 (amended): a record renders as the contact-name header, the phones
joined in stored order with a semicolon separator, and a birthday field
holding either str of the stored midnight datetime (isoformat with a space,
YYYY-MM-DD 00:00:00) or the text No info. -/
theorem c2_record_rendering :
    ∀ r : Record,
      recordStr r = "Contact name: " ++ r.name ++ ", phones: " ++
        joinWithSep "; " r.phones ++ ", birthday: " ++
        (match r.birthday with
         | some dt => pad4 dt.year ++ "-" ++ pad2 dt.month ++ "-" ++ pad2 dt.day ++ " 00:00:00"
         | none => "No info") := by
  intro r
  unfold recordStr pyDatetimeStr
  rw [strJoin_eq_joinWithSep]

/-- C4 (counterexample).  The string 29.02.2020 followed by a newline passes
the anchored regex of the source (so no InvalidFormat is raised) and its
three groups form a real calendar date, yet construction still fails,
through strptime, with the date error: the trichotomy of the claim does not
hold as stated. -/
theorem c4_trailing_newline_behaviour :
    birthdayNew "29.02.2020\n" = Except.error BErr.invalidDate ∧
    Birthday.validate "29.02.2020\n" = true ∧
    validDate ⟨2020, 2, 29⟩ := by
  refine ⟨rfl, rfl, by decide⟩

/-- C4 (amended): on a string of the padded shape DD.MM.YYYY, Birthday
construction returns the parsed date when the groups form a real calendar
date in day.month.year order and fails with the strptime date error
otherwise; the same shape followed by one trailing newline passes the regex
but always fails at parse time; every string rejected by the regex fails
with InvalidFormat. -/
theorem c4_birthday_construction :
    (∀ d m y : Nat, d ≤ 99 → m ≤ 99 → y ≤ 9999 →
      birthdayNew (mkDMY d m y) =
        (if validDate ⟨y, m, d⟩ then Except.ok ⟨y, m, d⟩
         else Except.error BErr.invalidDate) ∧
      birthdayNew (String.mk (dmyChars d m y ++ ['\n'])) = Except.error BErr.invalidDate)
    ∧ (∀ s : String, Birthday.validate s = false →
        birthdayNew s = Except.error BErr.invalidFormat) := by
  constructor
  · intro d m y hd hm hy
    exact ⟨birthdayNew_mkDMY d m y hd hm hy, birthdayNew_mkDMY_newline d m y hd hm hy⟩
  · intro s h
    unfold birthdayNew
    rw [if_neg (by simp [h])]

/-- C4 witness: the listed examples follow from the amended theorem, here
31.02.2020 (rejected as a date) and the regex-passing newline variant. -/
theorem c4_witness :
    birthdayNew (mkDMY 31 2 2020) = Except.error BErr.invalidDate ∧
    birthdayNew (String.mk (dmyChars 29 2 2020 ++ ['\n'])) = Except.error BErr.invalidDate := by
  have h1 := c4_birthday_construction.1 31 2 2020 (by norm_num) (by norm_num) (by norm_num)
  have h2 := c4_birthday_construction.1 29 2 2020 (by norm_num) (by norm_num) (by norm_num)
  exact ⟨by rw [h1.1, if_neg (by decide)], h2.2⟩

theorem pad2_data (n : Nat) (hn : n ≤ 99) : (pad2 n).data = dchars2 n := by
  unfold pad2 dchars2
  by_cases h : n < 10
  · rw [if_pos h]
    have e1 : n / 10 % 10 = 0 := by omega
    have e2 : n % 10 = n := by omega
    rw [e1, e2]
  · rw [if_neg h]
    unfold natStr natChars
    rw [if_neg h, if_pos (show n < 100 by omega)]
    have e1 : n / 10 % 10 = n / 10 := by omega
    rw [e1]

theorem natChars_year (y : Nat) (h1 : 1000 ≤ y) (h2 : y ≤ 9999) :
    natChars y = dchars4 y := by
  unfold natChars dchars4
  rw [if_neg (by omega), if_neg (by omega), if_neg (by omega)]

theorem strftime_dmY_mkDMY (d m y : Nat) (hd : d ≤ 99) (hm : m ≤ 99)
    (h1 : 1000 ≤ y) (h2 : y ≤ 9999) :
    strftime_dmY ⟨y, m, d⟩ = mkDMY d m y := by
  apply String.ext
  show (pad2 d ++ "." ++ pad2 m ++ "." ++ yearStr y).data = (mkDMY d m y).data
  rw [String.data_append, String.data_append, String.data_append, String.data_append,
    pad2_data d hd, pad2_data m hm]
  show dchars2 d ++ ['.'] ++ dchars2 m ++ ['.'] ++ natChars y = (mkDMY d m y).data
  rw [natChars_year y h1 h2]
  simp [mkDMY, dmyChars, dchars2, dchars4]

/-- C7 (counterexample).  The round trip fails for years below 1000: the
source formats the stored date with strftime %Y, which CPython/glibc prints
unpadded, so 01.01.0900 parses successfully but formats back as
01.01.900. -/
theorem c7_small_year_roundtrip_fails :
    birthdayNew "01.01.0900" = Except.ok ⟨900, 1, 1⟩ ∧
    strftime_dmY ⟨900, 1, 1⟩ = "01.01.900" ∧
    strftime_dmY ⟨900, 1, 1⟩ ≠ "01.01.0900" := by
  refine ⟨rfl, rfl, by decide⟩

/-- C7 (amended): for every real calendar date whose year has four digits
(1000 to 9999), parsing the padded DD.MM.YYYY string into a Birthday and
formatting the stored date back with strftime, as show-birthday does,
reproduces the string exactly. -/
theorem c7_roundtrip :
    ∀ d m y : Nat, validDate ⟨y, m, d⟩ → 1000 ≤ y →
      birthdayNew (mkDMY d m y) = Except.ok ⟨y, m, d⟩ ∧
      strftime_dmY ⟨y, m, d⟩ = mkDMY d m y := by
  intro d m y hv hy1000
  have hvd := hv
  simp only [validDate] at hvd
  obtain ⟨hy1, hy2, hm1, hm2, hd1, hd2⟩ := hvd
  have hd99 : d ≤ 99 := by
    have := daysInMonth_le31 y m
    omega
  constructor
  · rw [birthdayNew_mkDMY d m y hd99 (by omega) hy2, if_pos hv]
  · exact strftime_dmY_mkDMY d m y hd99 (by omega) hy1000 hy2

/-- C7 witness: the leap date 29.02.2020 round-trips. -/
theorem c7_witness :
    birthdayNew (mkDMY 29 2 2020) = Except.ok ⟨2020, 2, 29⟩ ∧
    strftime_dmY ⟨2020, 2, 29⟩ = mkDMY 29 2 2020 :=
  c7_roundtrip 29 2 2020 (by decide) (by norm_num)

/-- C6: a record kept by the upcoming-birthday query emits the computed
occurrence itself when its weekday (Monday 0 .. Sunday 6) is below 5, and
the next Monday otherwise; the shift is two days from a Saturday and one
day from a Sunday. -/
theorem c6_weekend_shift :
    ∀ (book : AddressBook) (now : Now) (r : Record) (b : Date) (r2 : Record) (bty : Date),
      r.birthday = some b →
      validDate ⟨now.date.year, b.month, b.day⟩ →
      bty = (if beforeNow ⟨now.date.year, b.month, b.day⟩ now
             then ⟨now.date.year + 1, b.month, b.day⟩
             else ⟨now.date.year, b.month, b.day⟩) →
      validDate bty →
      0 ≤ daysUntil bty now →
      daysUntil bty now ≤ 7 →
      bookFind book r.name = some r2 →
      processRecord book now r =
        Except.ok (some (r2.name,
          strftime_Ymd (if weekday bty < 5 then bty else nextMonday bty)))
      ∧ (weekday bty = 5 → nextMonday bty = addDays bty 2)
      ∧ (weekday bty = 6 → nextMonday bty = addDays bty 1) := by
  intro book now r b r2 bty hb hvA hbty hvB hdu0 hdu7 hfind
  refine ⟨?_, ?_, ?_⟩
  · simp only [processRecord, hb]
    rw [if_pos hvA]
    by_cases hbn : beforeNow ⟨now.date.year, b.month, b.day⟩ now
    · rw [if_pos hbn] at hbty
      subst hbty
      rw [if_pos hbn, if_pos hvB]
      unfold keepCheck
      rw [if_pos ⟨hdu0, hdu7⟩, hfind]
    · rw [if_neg hbn] at hbty
      subst hbty
      rw [if_neg hbn]
      unfold keepCheck
      rw [if_pos ⟨hdu0, hdu7⟩, hfind]
  · intro hw
    unfold nextMonday
    rw [hw]
  · intro hw
    unfold nextMonday
    rw [hw]

/-- C6 witness: today 2024-06-10 at noon, birthday occurrence 2024-06-15
(a Saturday), emitted congratulation date 2024-06-17 (the next Monday),
formatted YYYY-MM-DD. -/
theorem c6_witness :
    processRecord
      [("Ann", { name := "Ann", phones := ["1234567890"], birthday := some ⟨2000, 6, 15⟩ })]
      { date := ⟨2024, 6, 10⟩, tod := 43200000000 }
      { name := "Ann", phones := ["1234567890"], birthday := some ⟨2000, 6, 15⟩ } =
      Except.ok (some ("Ann", "2024-06-17")) := by
  have h := c6_weekend_shift
    [("Ann", { name := "Ann", phones := ["1234567890"], birthday := some ⟨2000, 6, 15⟩ })]
    { date := ⟨2024, 6, 10⟩, tod := 43200000000 }
    { name := "Ann", phones := ["1234567890"], birthday := some ⟨2000, 6, 15⟩ }
    ⟨2000, 6, 15⟩
    { name := "Ann", phones := ["1234567890"], birthday := some ⟨2000, 6, 15⟩ }
    ⟨2024, 6, 15⟩
    rfl (by decide) (by decide) (by decide) (by decide) (by decide) rfl
  exact h.1.trans (by rfl)

theorem replaceFirst_not_mem (ps : List String) (old new : String) (h : old ∉ ps) :
    replaceFirst ps old new = none := by
  induction ps with
  | nil => rfl
  | cons p ps ih =>
    simp only [List.mem_cons, not_or] at h
    unfold replaceFirst
    rw [if_neg (fun he => h.1 he.symm), ih h.2]
    rfl

theorem replaceFirst_first (pre : List String) (old new : String) (post : List String)
    (h : old ∉ pre) :
    replaceFirst (pre ++ old :: post) old new = some (pre ++ new :: post) := by
  induction pre with
  | nil => simp [replaceFirst]
  | cons p pre ih =>
    simp only [List.mem_cons, not_or] at h
    simp only [List.cons_append, replaceFirst, List.append_eq]
    rw [if_neg (fun he => h.1 he.symm), ih h.2]
    rfl

/-- C8: edit_phone raises the phone-not-found ValueError when no stored
phone equals the old value, replaces only the first matching entry when
duplicates exist, and the change handler on an absent contact renders the
contact-not-found KeyError and leaves the book untouched. -/
theorem c8_edit_phone_behaviour :
    (∀ (r : Record) (old new : String), old ∉ r.phones →
      Record.editPhone r old new = Except.error (PyErr.valueError "Phone number not found"))
    ∧ (∀ (nm : String) (bd : Option Date) (pre post : List String) (old new : String),
        old ∉ pre →
        Record.editPhone ⟨nm, pre ++ old :: post, bd⟩ old new =
          Except.ok ⟨nm, pre ++ new :: post, bd⟩)
    ∧ (∀ (book : AddressBook) (nm old new : String), bookFind book nm = none →
        runCmd (Cmd.change nm old new) book =
          (renderErr (PyErr.keyError ("Contact " ++ nm ++ " does not exist")), book)) := by
  refine ⟨?_, ?_, ?_⟩
  · intro r old new h
    unfold Record.editPhone
    rw [replaceFirst_not_mem r.phones old new h]
  · intro nm bd pre post old new h
    simp only [Record.editPhone]
    rw [replaceFirst_first pre old new post h]
  · intro book nm old new h
    simp only [runCmd, runRaw, editContactPhoneRaw, h]

/-- C8 witness: a missing phone, a duplicated phone edited only at its first
occurrence, and a change on an absent contact. -/
theorem c8_witness :
    Record.editPhone ⟨"Ann", ["1111111111"], none⟩ "2222222222" "3333333333" =
      Except.error (PyErr.valueError "Phone number not found") ∧
    Record.editPhone ⟨"Ann", ["1111111111", "1111111111"], none⟩ "1111111111" "2222222222" =
      Except.ok ⟨"Ann", ["2222222222", "1111111111"], none⟩ ∧
    runCmd (Cmd.change "Bob" "1111111111" "2222222222") [] =
      (renderErr (PyErr.keyError "Contact Bob does not exist"), []) := by
  refine ⟨c8_edit_phone_behaviour.1 _ _ _ (by decide), ?_, ?_⟩
  · exact c8_edit_phone_behaviour.2.1 "Ann" none [] ["1111111111"] "1111111111" "2222222222"
      (by simp)
  · exact c8_edit_phone_behaviour.2.2 [] "Bob" "1111111111" "2222222222" rfl

/-- C9: every handler, on every book and argument values, returns either
the success string of its body or a rendered error message of one of the
two decorator shapes, in which case the book is left unchanged — no
exception escapes to the dispatch loop. -/
theorem c9_handler_output_form :
    ∀ (c : Cmd) (book : AddressBook),
      runRaw c book = Except.ok (runCmd c book) ∨
      ((∃ msg, (runCmd c book).1 = "Error: " ++ msg ∨
          (runCmd c book).1 = "An unexpected error occurred: " ++ msg) ∧
        (runCmd c book).2 = book) := by
  intro c book
  unfold runCmd
  cases hr : runRaw c book with
  | ok out => left; rfl
  | error e =>
    right
    refine ⟨?_, rfl⟩
    cases e with
    | valueError m => exact ⟨m, Or.inl rfl⟩
    | keyError m =>
      exact ⟨quoteStr ++ m ++ quoteStr, Or.inl (by simp [renderErr, String.append_assoc])⟩
    | indexError m => exact ⟨m, Or.inl rfl⟩
    | exception m => exact ⟨m, Or.inr rfl⟩

theorem bookFind_dictSet (book : AddressBook) (k : String) (v : Record) (k2 : String) :
    bookFind (dictSet book k v) k2 = if k = k2 then some v else bookFind book k2 := by
  induction book with
  | nil => simp [dictSet, bookFind]
  | cons kv rest ih =>
    obtain ⟨k1, v1⟩ := kv
    simp only [dictSet]
    by_cases h1 : k1 = k
    · rw [if_pos h1]
      subst h1
      simp only [bookFind]
      by_cases h2 : k1 = k2
      · rw [if_pos h2, if_pos h2]
      · rw [if_neg h2, if_neg h2, if_neg h2]
    · rw [if_neg h1]
      simp only [bookFind]
      by_cases h2 : k1 = k2
      · rw [if_pos h2, if_neg (fun hk => h1 (h2.trans hk.symm)), if_pos h2]
      · rw [if_neg h2, ih]
        by_cases h3 : k = k2
        · rw [if_pos h3, if_pos h3]
        · rw [if_neg h3, if_neg h3, if_neg h2]

theorem bookInv_dictSet (book : AddressBook) (k : String) (v : Record)
    (h : bookInv book) (hv : v.phones ≠ []) : bookInv (dictSet book k v) := by
  intro k2 r hr
  rw [bookFind_dictSet] at hr
  by_cases hk : k = k2
  · rw [if_pos hk] at hr
    cases hr
    exact hv
  · rw [if_neg hk] at hr
    exact h k2 r hr

theorem replaceFirst_ne_nil (ps : List String) (o w : String) (qs : List String)
    (h : replaceFirst ps o w = some qs) : qs ≠ [] := by
  cases ps with
  | nil => cases h
  | cons p ps =>
    unfold replaceFirst at h
    by_cases hp : p = o
    · rw [if_pos hp] at h
      cases h
      simp
    · rw [if_neg hp] at h
      cases hrec : replaceFirst ps o w with
      | none =>
        rw [hrec] at h
        cases h
      | some l =>
        rw [hrec] at h
        injection h with h2
        rw [← h2]
        simp

theorem runCmd_inv (c : Cmd) (book : AddressBook) (h : bookInv book) :
    bookInv (runCmd c book).2 := by
  cases c with
  | add n p =>
    cases hf : bookFind book n with
    | none =>
      by_cases hv : Phone.validate p = true
      · have hrun : runCmd (Cmd.add n p) book =
            ("Contact " ++ n ++ " has been added with phone number " ++ p,
              dictSet book n { name := n, phones := [p], birthday := none }) := by
          simp [runCmd, runRaw, addContactRaw, hf, recordNew, Record.addPhone, phoneNew,
            hv, Except.map]
        rw [hrun]
        exact bookInv_dictSet book n _ h (by simp)
      · have hrun : (runCmd (Cmd.add n p) book).2 = book := by
          simp [runCmd, runRaw, addContactRaw, hf, recordNew, Record.addPhone, phoneNew,
            hv, Except.map]
        rw [hrun]
        exact h
    | some r0 =>
      by_cases hv : Phone.validate p = true
      · have hrun : runCmd (Cmd.add n p) book =
            ("Phone number " ++ p ++ " has been added to contact " ++ n,
              dictSet book n { r0 with phones := r0.phones ++ [p] }) := by
          simp [runCmd, runRaw, addContactRaw, hf, Record.addPhone, phoneNew, hv, Except.map]
        rw [hrun]
        exact bookInv_dictSet book n _ h (by simp)
      · have hrun : (runCmd (Cmd.add n p) book).2 = book := by
          simp [runCmd, runRaw, addContactRaw, hf, Record.addPhone, phoneNew, hv, Except.map]
        rw [hrun]
        exact h
  | change n o w =>
    cases hf : bookFind book n with
    | none =>
      have hrun : (runCmd (Cmd.change n o w) book).2 = book := by
        simp [runCmd, runRaw, editContactPhoneRaw, hf]
      rw [hrun]
      exact h
    | some r0 =>
      cases hrep : replaceFirst r0.phones o w with
      | none =>
        have hrun : (runCmd (Cmd.change n o w) book).2 = book := by
          simp [runCmd, runRaw, editContactPhoneRaw, hf, Record.editPhone, hrep, Except.map]
        rw [hrun]
        exact h
      | some ps =>
        have hrun : runCmd (Cmd.change n o w) book =
            ("Contact " ++ n ++ " has been changedphone number from " ++ o ++
               " to phone number " ++ w,
              dictSet book n { r0 with phones := ps }) := by
          simp [runCmd, runRaw, editContactPhoneRaw, hf, Record.editPhone, hrep, Except.map]
        rw [hrun]
        exact bookInv_dictSet book n _ h (replaceFirst_ne_nil r0.phones o w ps hrep)
  | phone n =>
    cases hf : bookFind book n with
    | none =>
      have hrun : (runCmd (Cmd.phone n) book).2 = book := by
        simp [runCmd, runRaw, showPhonesRaw, hf]
      rw [hrun]
      exact h
    | some r0 =>
      have hrun : (runCmd (Cmd.phone n) book).2 = book := by
        simp [runCmd, runRaw, showPhonesRaw, hf]
      rw [hrun]
      exact h
  | all =>
    by_cases hb : book = []
    · have hrun : (runCmd Cmd.all book).2 = book := by
        simp [runCmd, runRaw, showAllRaw, hb]
      rw [hrun]
      exact h
    · have hrun : (runCmd Cmd.all book).2 = book := by
        simp [runCmd, runRaw, showAllRaw, hb]
      rw [hrun]
      exact h
  | addBday n bd =>
    cases hf : bookFind book n with
    | none =>
      have hrun : (runCmd (Cmd.addBday n bd) book).2 = book := by
        simp [runCmd, runRaw, addBirthdayRaw, hf]
      rw [hrun]
      exact h
    | some r0 =>
      cases hb : birthdayNew bd with
      | ok dt =>
        have hrun : runCmd (Cmd.addBday n bd) book =
            ("Birthday " ++ bd ++ " has been added to contact " ++ n,
              dictSet book n { r0 with birthday := some dt }) := by
          simp [runCmd, runRaw, addBirthdayRaw, hf, Record.addBirthday, hb, Except.map]
        rw [hrun]
        exact bookInv_dictSet book n _ h (h n r0 hf)
      | error e =>
        have hrun : (runCmd (Cmd.addBday n bd) book).2 = book := by
          simp [runCmd, runRaw, addBirthdayRaw, hf, Record.addBirthday, hb, Except.map]
        rw [hrun]
        exact h
  | showBday n =>
    cases hf : bookFind book n with
    | none =>
      have hrun : (runCmd (Cmd.showBday n) book).2 = book := by
        simp [runCmd, runRaw, showBirthdayRaw, hf]
      rw [hrun]
      exact h
    | some r0 =>
      cases hbd : r0.birthday with
      | none =>
        have hrun : (runCmd (Cmd.showBday n) book).2 = book := by
          simp [runCmd, runRaw, showBirthdayRaw, hf, hbd]
        rw [hrun]
        exact h
      | some dt =>
        have hrun : (runCmd (Cmd.showBday n) book).2 = book := by
          simp [runCmd, runRaw, showBirthdayRaw, hf, hbd]
        rw [hrun]
        exact h
  | upcoming now =>
    cases hu : getUpcomingBirthdays book now with
    | error e =>
      have hrun : (runCmd (Cmd.upcoming now) book).2 = book := by
        simp [runCmd, runRaw, birthdaysRaw, hu]
      rw [hrun]
      exact h
    | ok l =>
      cases l with
      | nil =>
        have hrun : (runCmd (Cmd.upcoming now) book).2 = book := by
          simp [runCmd, runRaw, birthdaysRaw, hu]
        rw [hrun]
        exact h
      | cons p ps =>
        have hrun : (runCmd (Cmd.upcoming now) book).2 = book := by
          simp [runCmd, runRaw, birthdaysRaw, hu]
        rw [hrun]
        exact h

theorem runCmds_inv (cs : List Cmd) (book : AddressBook) (h : bookInv book) :
    bookInv (runCmds cs book) := by
  induction cs generalizing book with
  | nil => exact h
  | cons c cs ih => exact ih _ (runCmd_inv c book h)

/-- C10: in every book reachable from the empty one through any sequence of
dispatched commands, every stored record has a non-empty phone list —
records are created with one validated phone, add only appends, edit
replaces in place, and no handler removes a phone. -/
theorem c10_phones_nonempty :
    ∀ (cs : List Cmd) (k : String) (r : Record),
      bookFind (runCmds cs []) k = some r → r.phones ≠ [] := by
  intro cs k r hk
  have hinv : bookInv ([] : AddressBook) := by
    intro k2 r2 h2
    simp [bookFind] at h2
  exact runCmds_inv cs [] hinv k r hk

/-- C10 witness: after one add command the stored record has its one
phone. -/
theorem c10_witness :
    ({ name := "Ann", phones := ["1111111111"], birthday := none } : Record).phones ≠ [] :=
  c10_phones_nonempty [Cmd.add "Ann" "1111111111"] "Ann" _ rfl

end OopBot
